import Mathlib

/-!
Shallow embedding of helper.py from the GeorgiaLDUClosure repository.

The source groups a tabular dataset by the binary column named
"Closed 2012-2016" (pandas groupby), runs an exact Mann-Whitney U test
between the two groups of a measure, and prints a formatted report.

Modelling choices, each matched to a line of the source:
* a DataFrame is a list of column names plus a list of rows; a row maps a
  column name to an optional rational (none models a NaN / missing cell;
  the loaded study columns hold finite numbers or NaN);
* pandas groupby drops rows whose key is NaN and puts every distinct key
  value in its own group; get_group(v) raises KeyError when the group is
  empty, and column selection raises KeyError when the column is absent;
  scipy mannwhitneyu raises ValueError on an empty sample.  These Python
  exceptions become the Err values below;
* the derived ratio column of proportion_stats can hold infinities
  (pandas x/0 is +inf or -inf and 0/0 is NaN), so statistics run over
  PVal, a float value that is not NaN; NaN stays Option.none;
* each print statement of a report becomes one Line value holding the
  data that the format string would render.
-/

namespace GeorgiaLDU

deriving instance DecidableEq for Except

/-- Failures surfaced by the reporting functions: pandas raises KeyError when
a column is absent from the DataFrame (missingColumn) and when get_group is
called for a key with no rows, and scipy mannwhitneyu raises ValueError when
a sample is empty (both mapped to emptyGroup, following the error taxonomy
of the specification). -/
inductive Err where
  | missingColumn
  | emptyGroup
  deriving DecidableEq

/-- A pandas float cell value that is not NaN: a finite rational or an
infinity.  A NaN (missing value) is modelled as none in Option PVal. -/
inductive PVal where
  | num (q : ℚ)
  | pinf
  | ninf
  deriving DecidableEq

/-- Strict order on non-NaN float values, as numpy compares them. -/
def PVal.ltb : PVal → PVal → Bool
  | .ninf, .ninf => false
  | .ninf, _ => true
  | .num _, .ninf => false
  | .num a, .num b => decide (a < b)
  | .num _, .pinf => true
  | .pinf, _ => false

/-- Mean of two non-NaN float values, as numpy computes the median of an
even-length sample: finite mean, an infinity absorbs a finite value, and
opposite infinities give NaN (none). -/
def pavg : PVal → PVal → Option PVal
  | .num a, .num b => some (.num ((a + b) / 2))
  | .pinf, .ninf => none
  | .ninf, .pinf => none
  | .pinf, _ => some .pinf
  | _, .pinf => some .pinf
  | .ninf, _ => some .ninf
  | _, .ninf => some .ninf

/-- Drop the missing entries of a column, as pandas dropna and the skipna
default of the pandas aggregations do. -/
def dropna {α : Type} (l : List (Option α)) : List α := l.filterMap id

/-- pandas Series.sum with its skipna default: missing values contribute
nothing and the empty sum is 0. -/
def qsum (l : List (Option ℚ)) : ℚ := (dropna l).sum

def insertSorted (a : PVal) : List PVal → List PVal
  | [] => [a]
  | b :: l => if PVal.ltb b a then b :: insertSorted a l else a :: b :: l

/-- Sort a sample, as numpy does before taking a median. -/
def psort (l : List PVal) : List PVal := l.foldr insertSorted []

/-- Median of a sorted sample: the middle element, or the mean of the two
middle elements for an even length; NaN (none) on an empty sample. -/
def medianSorted (l : List PVal) : Option PVal :=
  if l.length = 0 then none
  else if l.length % 2 = 1 then l[l.length / 2]?
  else
    match l[l.length / 2 - 1]?, l[l.length / 2]? with
    | some a, some b => pavg a b
    | _, _ => none

/-- pandas Series.median with its skipna default. -/
def pmedian (l : List (Option PVal)) : Option PVal := medianSorted (psort (dropna l))

/-- pandas Series.min with its skipna default; NaN (none) on an empty or
all-missing series. -/
def pminl (l : List (Option PVal)) : Option PVal :=
  (dropna l).foldl
    (fun acc a =>
      match acc with
      | none => some a
      | some b => some (if PVal.ltb a b then a else b))
    none

/-- pandas Series.max with its skipna default. -/
def pmaxl (l : List (Option PVal)) : Option PVal :=
  (dropna l).foldl
    (fun acc a =>
      match acc with
      | none => some a
      | some b => some (if PVal.ltb b a then a else b))
    none

/-- Score of one pair of observations in the Mann-Whitney U statistic:
1 when the first sample wins, 1/2 for a tie. -/
def mwScore (a b : PVal) : ℚ := if a = b then 1 / 2 else if PVal.ltb b a then 1 else 0

/-- The Mann-Whitney U1 statistic of two samples. -/
def uStat (x y : List PVal) : ℚ := (x.map (fun a => (y.map (mwScore a)).sum)).sum

/-- Inner recursion for mwCount: the distribution for n + 1 first-sample
values in terms of the one for n (cPrev), by recursion on the second sample
size. -/
def mwCountN (cPrev : Nat → Int → Nat) : Nat → Int → Nat
  | 0, u => if u = 0 then 1 else 0
  | m + 1, u => cPrev (m + 1) (u - (m + 1)) + mwCountN cPrev m u

/-- Number of arrangements of n values of the first sample and m of the
second with U1 statistic exactly u (the exact null distribution that scipy
tabulates for method equal to exact). -/
def mwCount : Nat → Nat → Int → Nat
  | 0 => fun _ u => if u = 0 then 1 else 0
  | n + 1 => mwCountN (mwCount n)

/-- Number of arrangements with U1 at least k. -/
def mwTail (n m k : Nat) : ℚ :=
  (((List.range (n * m + 1)).filter (fun j => k ≤ j)).map (fun j => (mwCount n m (j : Int) : ℚ))).sum

/-- Ceiling of a rational, as a natural number (inputs are nonnegative). -/
def qceil (q : ℚ) : Nat := (-(Rat.floor (-q))).toNat

/-- scipy.stats.mannwhitneyu with its two-sided default and method exact, as
helper.py calls it: ValueError (emptyGroup) on an empty sample, else twice
the exact null probability of a U statistic at least max(U1, U2), clipped
to 1. -/
def mannwhitneyu (x y : List PVal) : Except Err ℚ :=
  if x = [] ∨ y = [] then .error .emptyGroup
  else
    let u1 := uStat x y
    let u2 := ((x.length : ℚ) * (y.length : ℚ)) - u1
    let k := qceil (if u1 ≤ u2 then u2 else u1)
    let p := 2 * mwTail x.length y.length k / ((x.length + y.length).choose x.length : ℚ)
    .ok (if p ≤ 1 then p else 1)

/-- A tabular dataset: named columns and rows mapping a column name to an
optional (NaN-able) numeric cell. -/
structure DataFrame where
  cols : List String
  rows : List (String → Option ℚ)

/-- The hardcoded closure-flag column name of helper.py. -/
def flagColName : String := "Closed 2012-2016"

/-- The values of one column over a list of rows. -/
def colOf (rows : List (String → Option ℚ)) (c : String) : List (Option ℚ) :=
  rows.map (fun r => r c)

/-- The rows whose closure flag equals v.  pandas groupby keys on the exact
value: rows with a NaN flag or any other flag value fall outside. -/
def flagRows (df : DataFrame) (v : ℚ) : List (String → Option ℚ) :=
  df.rows.filter (fun r => r flagColName = some v)

/-- df.groupby of the flag column followed by get_group(v): KeyError when
the flag column is absent, KeyError when no row has flag v. -/
def getGroup (df : DataFrame) (v : ℚ) : Except Err (List (String → Option ℚ)) :=
  if flagColName ∈ df.cols then
    if (flagRows df v).isEmpty then .error .emptyGroup else .ok (flagRows df v)
  else .error .missingColumn

/-- Column selection on a (sub)frame: KeyError when the column is absent. -/
def selectCol (rows : List (String → Option ℚ)) (cols : List String) (c : String) :
    Except Err (List (Option ℚ)) :=
  if c ∈ cols then .ok (colOf rows c) else .error .missingColumn

def DataFrame.colVals (df : DataFrame) (c : String) : Except Err (List (Option ℚ)) :=
  selectCol df.rows df.cols c

/-- df.copy(): a fresh value; later column assignments on the copy leave the
original frame untouched. -/
def DataFrame.copy (df : DataFrame) : DataFrame := ⟨df.cols, df.rows⟩

/-- Finite numeric cells viewed as non-NaN float values. -/
def toPV (l : List (Option ℚ)) : List (Option PVal) := l.map (Option.map PVal.num)

/-- One printed line of a report, holding the data that the corresponding
format string of helper.py renders. -/
inductive Line where
  | header (title : String) (rule : Nat)
  | total (v : ℚ)
  | group (name : String) (med mn mx : Option PVal)
  | test (name : String) (p : ℚ)
  deriving DecidableEq

/-- helper.count_stats: group by closure status, Mann-Whitney U exact test on
the non-missing measure values of the two groups, then print the header, the
Total over the whole column, one median/min/max line per group, and the
p-value line. -/
def count_stats (df : DataFrame) (measure : String) : Except Err (List Line) :=
  (getGroup df 0).bind fun openRows =>
  (selectCol openRows df.cols measure).bind fun openVals =>
  (getGroup df 1).bind fun closedRows =>
  (selectCol closedRows df.cols measure).bind fun closedVals =>
  (mannwhitneyu ((dropna openVals).map PVal.num) ((dropna closedVals).map PVal.num)).map
    fun pval =>
      [ Line.header measure measure.length,
        Line.total (qsum (colOf df.rows measure)),
        Line.group "Open:" (pmedian (toPV openVals)) (pminl (toPV openVals))
          (pmaxl (toPV openVals)),
        Line.group "Closed:" (pmedian (toPV closedVals)) (pminl (toPV closedVals))
          (pmaxl (toPV closedVals)),
        Line.test "Mann-Whit:" pval ]

/-- The per-record ratio of the derived percentage column of
proportion_stats: pandas elementwise division, where a missing numerator or
denominator gives NaN, x/0 gives an infinity of the sign of x, and 0/0
gives NaN. -/
def divP : Option ℚ → Option ℚ → Option PVal
  | some a, some b =>
      if b = 0 then
        if a = 0 then none else if 0 < a then some .pinf else some .ninf
      else some (.num (a / b))
  | _, _ => none

/-- The derived ratio column over a list of rows. -/
def ratioCol (rows : List (String → Option ℚ)) (numer denom : String) : List (Option PVal) :=
  rows.map (fun r => divP (r numer) (r denom))

/-- helper.proportion_stats: copy the frame, add the elementwise ratio
column, group the copy by closure status, Mann-Whitney U exact test on the
non-missing ratios, then print the header, the Total of the numerator
column, one median/min/max line per group, and the p-value line.  The second
component is the frame the caller sees after the call: the column
assignment lands on the copy, so it is the input frame itself.
proportion_report is the printed-lines part of the call. -/
def proportion_report (df : DataFrame) (numer denom : String) : Except Err (List Line) :=
  let prop_df := df.copy
  (prop_df.colVals numer).bind fun _ =>
  (prop_df.colVals denom).bind fun _ =>
  (getGroup prop_df 0).bind fun openRows =>
  (getGroup prop_df 1).bind fun closedRows =>
  (mannwhitneyu (dropna (ratioCol openRows numer denom))
      (dropna (ratioCol closedRows numer denom))).map
    fun pval =>
      [ Line.header ("% " ++ numer) (numer.length + 2),
        Line.total (qsum (colOf prop_df.rows numer)),
        Line.group "Open:" (pmedian (ratioCol openRows numer denom))
          (pminl (ratioCol openRows numer denom)) (pmaxl (ratioCol openRows numer denom)),
        Line.group "Closed:" (pmedian (ratioCol closedRows numer denom))
          (pminl (ratioCol closedRows numer denom)) (pmaxl (ratioCol closedRows numer denom)),
        Line.test "Mann-Whit:" pval ]

/-- helper.proportion_stats: the report computation paired with the frame
the caller holds afterwards (the copy absorbed the column assignment). -/
def proportion_stats (df : DataFrame) (numer denom : String) :
    Except Err (List Line) × DataFrame :=
  (proportion_report df numer denom, df)

/-- helper.two_by_two: group by closure status and print the four marginal
sums, one labelled line each, in the order indicator1 with the Closed group,
indicator2 with Closed, indicator1 with Open, indicator2 with Open. -/
def two_by_two (df : DataFrame) (ind1 ind2 : String) : Except Err (List (String × ℚ)) :=
  (getGroup df 0).bind fun openRows =>
  (getGroup df 1).bind fun closedRows =>
  (selectCol closedRows df.cols ind1).bind fun c1 =>
  (selectCol closedRows df.cols ind2).bind fun c2 =>
  (selectCol openRows df.cols ind1).bind fun o1 =>
  (selectCol openRows df.cols ind2).map fun o2 =>
    [ (ind1 ++ ", Closed:", qsum c1),
      (ind2 ++ ", Closed:", qsum c2),
      (ind1 ++ ", Open:", qsum o1),
      (ind2 ++ ", Open:", qsum o2) ]

/-- The p-value a successful Mann-Whitney run reports. -/
def mwP (x y : List PVal) : ℚ :=
  match mannwhitneyu x y with
  | .ok p => p
  | .error _ => 0

/-- The non-missing measure values of the group with flag v, as passed to
the significance test by count_stats. -/
def countSample (df : DataFrame) (v : ℚ) (m : String) : List PVal :=
  (dropna (colOf (flagRows df v) m)).map PVal.num

/-- The exact line list a successful count_stats call prints. -/
def countReport (df : DataFrame) (m : String) : List Line :=
  [ Line.header m m.length,
    Line.total (qsum (colOf df.rows m)),
    Line.group "Open:" (pmedian (toPV (colOf (flagRows df 0) m)))
      (pminl (toPV (colOf (flagRows df 0) m))) (pmaxl (toPV (colOf (flagRows df 0) m))),
    Line.group "Closed:" (pmedian (toPV (colOf (flagRows df 1) m)))
      (pminl (toPV (colOf (flagRows df 1) m))) (pmaxl (toPV (colOf (flagRows df 1) m))),
    Line.test "Mann-Whit:" (mwP (countSample df 0 m) (countSample df 1 m)) ]

/-- The derived ratio column of the group with flag v. -/
def propRatios (df : DataFrame) (v : ℚ) (n d : String) : List (Option PVal) :=
  ratioCol (flagRows df v) n d

/-- The exact line list a successful proportion_stats call prints. -/
def propReport (df : DataFrame) (n d : String) : List Line :=
  [ Line.header ("% " ++ n) (n.length + 2),
    Line.total (qsum (colOf df.rows n)),
    Line.group "Open:" (pmedian (propRatios df 0 n d)) (pminl (propRatios df 0 n d))
      (pmaxl (propRatios df 0 n d)),
    Line.group "Closed:" (pmedian (propRatios df 1 n d)) (pminl (propRatios df 1 n d))
      (pmaxl (propRatios df 1 n d)),
    Line.test "Mann-Whit:" (mwP (dropna (propRatios df 0 n d)) (dropna (propRatios df 1 n d))) ]

/-- Sum of the non-missing values of a measure over the group with flag v. -/
def sumOver (df : DataFrame) (v : ℚ) (m : String) : ℚ := qsum (colOf (flagRows df v) m)

/-- A row of a two-column frame: the closure flag and a measure M. -/
def mkRow (flag mv : Option ℚ) : String → Option ℚ :=
  fun c => if c = flagColName then flag else if c = "M" then mv else none

/-- A frame with a flag column and one measure column M. -/
def mkDF (l : List (Option ℚ × Option ℚ)) : DataFrame :=
  ⟨[flagColName, "M"], l.map (fun p => mkRow p.1 p.2)⟩

/-- A row of a three-column frame: the closure flag, a numerator N and a
denominator D. -/
def mkRowP (flag n d : Option ℚ) : String → Option ℚ :=
  fun c =>
    if c = flagColName then flag
    else if c = "N" then n
    else if c = "D" then d
    else none

/-- A frame with a flag column, a numerator column N and a denominator
column D. -/
def mkDFP (l : List (Option ℚ × Option ℚ × Option ℚ)) : DataFrame :=
  ⟨[flagColName, "N", "D"], l.map (fun p => mkRowP p.1 p.2.1 p.2.2)⟩

example : mwCount 3 3 9 = 1 := by decide

example : mannwhitneyu [PVal.num 1, PVal.num 2, PVal.num 3]
    [PVal.num 4, PVal.num 5, PVal.num 6] = .ok (1 / 10) := by with_unfolding_all decide

/-! Inversion lemmas for the Except chains of the reporting functions. -/

theorem bindOk {α β : Type} {x : Except Err α} {f : α → Except Err β} {b : β}
    (h : x.bind f = .ok b) : ∃ a, x = .ok a ∧ f a = .ok b := by
  cases x with
  | error e => simp [Except.bind] at h
  | ok a => exact ⟨a, rfl, h⟩

theorem mapOk {α β : Type} {x : Except Err α} {g : α → β} {b : β}
    (h : x.map g = .ok b) : ∃ a, x = .ok a ∧ g a = b := by
  cases x with
  | error e => simp [Except.map] at h
  | ok a => simp only [Except.map, Except.ok.injEq] at h; exact ⟨a, rfl, h⟩

theorem getGroup_ok {df : DataFrame} {v : ℚ} {rows : List (String → Option ℚ)}
    (h : getGroup df v = .ok rows) : rows = flagRows df v := by
  unfold getGroup at h
  by_cases hc : flagColName ∈ df.cols
  · rw [if_pos hc] at h
    by_cases he : (flagRows df v).isEmpty
    · rw [if_pos he] at h; exact absurd h (by simp)
    · rw [if_neg he] at h
      injection h with h
      exact h.symm
  · rw [if_neg hc] at h; exact absurd h (by simp)

theorem selectCol_ok {rows : List (String → Option ℚ)} {cols : List String} {c : String}
    {vals : List (Option ℚ)} (h : selectCol rows cols c = .ok vals) : vals = colOf rows c := by
  unfold selectCol at h
  by_cases hc : c ∈ cols
  · rw [if_pos hc] at h
    injection h with h
    exact h.symm
  · rw [if_neg hc] at h; exact absurd h (by simp)

theorem mwP_eq {x y : List PVal} {p : ℚ} (h : mannwhitneyu x y = .ok p) : mwP x y = p := by
  simp [mwP, h]

/-- A successful count_stats call prints exactly the countReport lines. -/
theorem count_shape {df : DataFrame} {m : String} {lines : List Line}
    (h : count_stats df m = .ok lines) : lines = countReport df m := by
  unfold count_stats at h
  obtain ⟨openRows, hg0, h⟩ := bindOk h
  obtain ⟨openVals, hs0, h⟩ := bindOk h
  obtain ⟨closedRows, hg1, h⟩ := bindOk h
  obtain ⟨closedVals, hs1, h⟩ := bindOk h
  obtain ⟨pval, hmw, h⟩ := mapOk h
  have e0 := getGroup_ok hg0
  subst e0
  have e1 := getGroup_ok hg1
  subst e1
  have f0 := selectCol_ok hs0
  subst f0
  have f1 := selectCol_ok hs1
  subst f1
  subst h
  simp only [countReport, countSample]
  rw [mwP_eq hmw]

/-- A successful proportion_stats call prints exactly the propReport lines. -/
theorem prop_shape {df : DataFrame} {n d : String} {lines : List Line} {df2 : DataFrame}
    (h : proportion_stats df n d = (.ok lines, df2)) : lines = propReport df n d := by
  have h1 : proportion_report df n d = .ok lines := congrArg Prod.fst h
  unfold proportion_report at h1
  obtain ⟨v1, hc1, h1⟩ := bindOk h1
  obtain ⟨v2, hc2, h1⟩ := bindOk h1
  obtain ⟨openRows, hg0, h1⟩ := bindOk h1
  obtain ⟨closedRows, hg1, h1⟩ := bindOk h1
  obtain ⟨pval, hmw, h1⟩ := mapOk h1
  have e0 := getGroup_ok hg0
  subst e0
  have e1 := getGroup_ok hg1
  subst e1
  subst h1
  have hmw' : mannwhitneyu (dropna (ratioCol (flagRows df 0) n d))
      (dropna (ratioCol (flagRows df 1) n d)) = Except.ok pval := hmw
  simp only [propReport, propRatios]
  rw [mwP_eq hmw']
  rfl

/-- Sum of an optional head and a tail, pandas style (NaN contributes 0). -/
theorem qsum_cons (a : Option ℚ) (l : List (Option ℚ)) :
    qsum (a :: l) = a.getD 0 + qsum l := by
  cases a <;> simp [qsum, dropna]

/-- When every row carries flag 0 or flag 1, a column sum over all rows
splits into the two group sums. -/
theorem qsum_partition (rows : List (String → Option ℚ)) (m : String)
    (h : ∀ r ∈ rows, r flagColName = some 0 ∨ r flagColName = some 1) :
    qsum (colOf rows m) =
      qsum (colOf (rows.filter (fun r => r flagColName = some 0)) m) +
        qsum (colOf (rows.filter (fun r => r flagColName = some 1)) m) := by
  induction rows with
  | nil => simp [qsum, colOf, dropna]
  | cons r rs ih =>
    have hr := h r (List.mem_cons_self r rs)
    have hrs : ∀ x ∈ rs, x flagColName = some 0 ∨ x flagColName = some 1 :=
      fun x hx => h x (List.mem_cons_of_mem r hx)
    have hih := ih hrs
    rcases hr with h0 | h1
    · have hp : decide (r flagColName = some (0 : ℚ)) = true := by
        rw [h0]; with_unfolding_all decide
      have hq : decide (r flagColName = some (1 : ℚ)) = false := by
        rw [h0]; with_unfolding_all decide
      simp only [colOf, List.map_cons, List.filter_cons, hp, hq] at hih ⊢
      simp only [if_true, Bool.false_eq_true, if_false, List.map_cons, qsum_cons]
      rw [hih]
      ring
    · have hp : decide (r flagColName = some (0 : ℚ)) = false := by
        rw [h1]; with_unfolding_all decide
      have hq : decide (r flagColName = some (1 : ℚ)) = true := by
        rw [h1]; with_unfolding_all decide
      simp only [colOf, List.map_cons, List.filter_cons, hp, hq] at hih ⊢
      simp only [if_true, Bool.false_eq_true, if_false, List.map_cons, qsum_cons]
      rw [hih]
      ring

/-- Modelled from the spec (Summary Statistics Computer, section 4.3): the
mean over the non-missing values of a measure.  The source report functions
never compute a mean; this definition exists only to compare the spec
wording about per-group mean lines with the lines the code emits. -/
def specMean (l : List ℚ) : ℚ := l.sum / l.length

/-- Whether a printed line carries the finite numeric value q in any of its
data slots. -/
def mentionsVal : Line → ℚ → Bool
  | .header _ _, _ => false
  | .total v, q => v = q
  | .group _ a b c, q =>
      a = some (PVal.num q) || b = some (PVal.num q) || c = some (PVal.num q)
  | .test _ p, q => p = q

/-! Concrete frames used as inputs of witnesses and counterexamples. -/

/-- Two rows: one Open row whose measure is missing, one Closed row. -/
def dfMissingOpen : DataFrame := mkDF [(some 0, none), (some 1, some 1)]

/-- A frame without the closure-flag column. -/
def dfNoFlag : DataFrame := ⟨["M"], [fun c => if c = "M" then some 1 else none]⟩

/-- Three rows with flags 0, 1 and 2: the third flag value is not a
recognized closure code. -/
def dfFlagTwo : DataFrame := mkDF [(some 0, some 1), (some 1, some 2), (some 2, some 7)]

/-- The lines count_stats prints on dfFlagTwo. -/
def linesFlagTwo : List Line :=
  [ Line.header "M" 1, Line.total 10,
    Line.group "Open:" (some (PVal.num 1)) (some (PVal.num 1)) (some (PVal.num 1)),
    Line.group "Closed:" (some (PVal.num 2)) (some (PVal.num 2)) (some (PVal.num 2)),
    Line.test "Mann-Whit:" 1 ]

/-- Six rows: Open measures 1, 2, 3 and Closed measures 4, 5, 6. -/
def dfOneToSix : DataFrame :=
  mkDF [(some 0, some 1), (some 0, some 2), (some 0, some 3),
        (some 1, some 4), (some 1, some 5), (some 1, some 6)]

/-- Six rows: Open measures 1, 2, 4 (mean 7/3) and Closed 10, 11, 12. -/
def dfMeanGap : DataFrame :=
  mkDF [(some 0, some 1), (some 0, some 2), (some 0, some 4),
        (some 1, some 10), (some 1, some 11), (some 1, some 12)]

/-- The lines count_stats prints on dfMeanGap. -/
def linesMeanGap : List Line :=
  [ Line.header "M" 1, Line.total 40,
    Line.group "Open:" (some (PVal.num 2)) (some (PVal.num 1)) (some (PVal.num 4)),
    Line.group "Closed:" (some (PVal.num 11)) (some (PVal.num 10)) (some (PVal.num 12)),
    Line.test "Mann-Whit:" (1 / 10) ]

/-- Two rows, flags 0 and 1 only, no missing measure value. -/
def dfTwoRows : DataFrame := mkDF [(some 0, some 1), (some 1, some 2)]

/-- The lines count_stats prints on dfTwoRows. -/
def linesTwoRows : List Line :=
  [ Line.header "M" 1, Line.total 3,
    Line.group "Open:" (some (PVal.num 1)) (some (PVal.num 1)) (some (PVal.num 1)),
    Line.group "Closed:" (some (PVal.num 2)) (some (PVal.num 2)) (some (PVal.num 2)),
    Line.test "Mann-Whit:" 1 ]

/-- Two rows with numerator and denominator columns. -/
def dfInds : DataFrame := mkDFP [(some 0, some 1, some 2), (some 1, some 3, some 4)]

/-- The marginal lines two_by_two prints on dfInds with N and D. -/
def outInds : List (String × ℚ) :=
  [("N, Closed:", 3), ("D, Closed:", 4), ("N, Open:", 1), ("D, Open:", 2)]

/-- Five rows for the zero-denominator edge case: the Open group holds the
ratios 1/0 (infinite), 1/2 and 0/0 (missing); the Closed group holds 1/1
and 3/4. -/
def dfZeroDen : DataFrame :=
  mkDFP [(some 0, some 1, some 0), (some 0, some 1, some 2), (some 0, some 0, some 0),
         (some 1, some 1, some 1), (some 1, some 3, some 4)]

/-- The lines proportion_stats prints on dfZeroDen. -/
def linesZeroDen : List Line :=
  [ Line.header "% N" 3, Line.total 6,
    Line.group "Open:" (some PVal.pinf) (some (PVal.num (1 / 2))) (some PVal.pinf),
    Line.group "Closed:" (some (PVal.num (7 / 8))) (some (PVal.num (3 / 4))) (some (PVal.num 1)),
    Line.test "Mann-Whit:" 1 ]

/-! The claims. -/

/-- C1: for every dataset in which one closure group has zero records with a
non-missing value of the requested measure, count_stats fails with the
empty-group error before printing anything; it never runs to completion with
a zero or NaN statistic for that group. -/
theorem count_stats_empty_group_fails (df : DataFrame) (m : String)
    (hf : flagColName ∈ df.cols) (hm : m ∈ df.cols)
    (he : dropna (colOf (flagRows df 0) m) = [] ∨ dropna (colOf (flagRows df 1) m) = []) :
    count_stats df m = .error .emptyGroup := by
  unfold count_stats
  by_cases h0 : (flagRows df 0).isEmpty
  · simp [getGroup, hf, h0, Except.bind]
  · by_cases h1 : (flagRows df 1).isEmpty
    · simp [getGroup, selectCol, hf, hm, h0, h1, Except.bind]
    · rcases he with he | he <;>
        simp [getGroup, selectCol, mannwhitneyu, hf, hm, h0, h1, he, Except.bind, Except.map]

/-- C1 witness: on dfMissingOpen the Open group exists but has no
non-missing measure value, and count_stats stops with the empty-group
error. -/
theorem count_stats_empty_group_fails_witness :
    (flagColName ∈ dfMissingOpen.cols ∧ "M" ∈ dfMissingOpen.cols
        ∧ (dropna (colOf (flagRows dfMissingOpen 0) "M") = []
            ∨ dropna (colOf (flagRows dfMissingOpen 1) "M") = []))
      ∧ count_stats dfMissingOpen "M" = .error .emptyGroup :=
  ⟨⟨by decide, by decide, by with_unfolding_all decide⟩,
    count_stats_empty_group_fails dfMissingOpen "M" (by decide) (by decide)
      (by with_unfolding_all decide)⟩

/-- C2 counterexample: dfFlagTwo carries the unrecognized flag value 2, yet
count_stats does not fail: it silently drops that row from both groups and
completes. -/
theorem flag_value_two_proceeds_cex :
    colOf dfFlagTwo.rows flagColName = [some 0, some 1, some 2]
      ∧ count_stats dfFlagTwo "M" = .ok linesFlagTwo := by
  with_unfolding_all decide

/-- C2 amended: partitioning fails with the missing-column error whenever
the closure-flag column is absent; rows with flag values other than 0 and 1
are silently excluded rather than reported. -/
theorem count_stats_missing_flag_fails (df : DataFrame) (m : String)
    (hf : flagColName ∉ df.cols) : count_stats df m = .error .missingColumn := by
  unfold count_stats
  simp [getGroup, hf, Except.bind]

/-- C2 witness: dfNoFlag has no closure-flag column and count_stats reports
the missing-column error. -/
theorem count_stats_missing_flag_fails_witness :
    flagColName ∉ dfNoFlag.cols ∧ count_stats dfNoFlag "M" = .error .missingColumn :=
  ⟨by decide, count_stats_missing_flag_fails dfNoFlag "M" (by decide)⟩

/-- C5: on Open measures 1, 2, 3 and Closed measures 4, 5, 6, count_stats
reports medians 2 and 5 and the exact Mann-Whitney p-value 1/10. -/
theorem count_stats_one_to_six :
    count_stats dfOneToSix "M" = .ok
      [ Line.header "M" 1, Line.total 21,
        Line.group "Open:" (some (PVal.num 2)) (some (PVal.num 1)) (some (PVal.num 3)),
        Line.group "Closed:" (some (PVal.num 5)) (some (PVal.num 4)) (some (PVal.num 6)),
        Line.test "Mann-Whit:" (1 / 10) ] := by
  with_unfolding_all decide

/-- C3 counterexample: on dfMeanGap the report succeeds, the Open group mean
is 7/3, and no printed line carries that value: the group lines state the
median and the min-max only, never the mean. -/
theorem report_lacks_mean_cex :
    count_stats dfMeanGap "M" = .ok linesMeanGap
      ∧ specMean (dropna (colOf (flagRows dfMeanGap 0) "M")) = 7 / 3
      ∧ linesMeanGap.all (fun l => !(mentionsVal l (7 / 3))) = true := by
  with_unfolding_all decide

/-- C3 amended: every successful report consists of a header naming the
measure, a totals line, one line per group stating that group median and
min-max (no mean is printed), and one line for the Mann-Whitney test with
its p-value. -/
theorem report_shape :
    (∀ (df : DataFrame) (m : String) (lines : List Line),
        count_stats df m = .ok lines → lines = countReport df m)
    ∧ (∀ (df : DataFrame) (n d : String) (lines : List Line) (df2 : DataFrame),
        proportion_stats df n d = (.ok lines, df2) → lines = propReport df n d) :=
  ⟨fun _ _ _ h => count_shape h, fun _ _ _ _ _ h => prop_shape h⟩

/-- C3 witness: the successful dfMeanGap run has exactly the countReport
shape. -/
theorem report_shape_witness : linesMeanGap = countReport dfMeanGap "M" :=
  report_shape.1 dfMeanGap "M" linesMeanGap (by with_unfolding_all decide)

/-- C4 counterexample: dfFlagTwo has no missing measure value, count_stats
succeeds, its Total line reports 10, but the Open and Closed sums are 1 and
2: the unrecognized flag-2 row makes the Total differ from the group sums. -/
theorem total_vs_groups_cex :
    dfFlagTwo.rows.all (fun r => (r "M").isSome) = true
      ∧ count_stats dfFlagTwo "M" = .ok linesFlagTwo
      ∧ linesFlagTwo[1]? = some (Line.total 10)
      ∧ sumOver dfFlagTwo 0 "M" + sumOver dfFlagTwo 1 "M" = 3
      ∧ (10 : ℚ) ≠ 3 := by
  with_unfolding_all decide

/-- C4 amended: when additionally every record flag is one of the two
recognized codes 0 and 1, the reported Total equals the Open group sum plus
the Closed group sum (no missing measure values). -/
theorem total_eq_group_sums (df : DataFrame) (m : String) (lines : List Line)
    (hflags : ∀ r ∈ df.rows, r flagColName = some 0 ∨ r flagColName = some 1)
    (_hnm : ∀ r ∈ df.rows, (r m).isSome)
    (hok : count_stats df m = .ok lines) :
    lines[1]? = some (Line.total (sumOver df 0 m + sumOver df 1 m)) := by
  rw [count_shape hok]
  have hsplit := qsum_partition df.rows m hflags
  simp only [countReport, List.getElem?_cons_succ, List.getElem?_cons_zero,
    Option.some.injEq, Line.total.injEq, sumOver, flagRows]
  exact hsplit

/-- C4 witness: on dfTwoRows the reported Total is the sum of the two group
sums. -/
theorem total_eq_group_sums_witness :
    linesTwoRows[1]? = some (Line.total (sumOver dfTwoRows 0 "M" + sumOver dfTwoRows 1 "M")) :=
  total_eq_group_sums dfTwoRows "M" linesTwoRows (by with_unfolding_all decide)
    (by with_unfolding_all decide) (by with_unfolding_all decide)

/-- C6: the per-record value of a Proportion measure is the elementwise
numerator/denominator ratio; a missing numerator or denominator yields a
missing ratio; the ratio column keeps one entry per group record, and
missing entries change neither the group statistics nor the sample handed
to the significance test. -/
theorem proportion_ratio_missing_policy :
    (∀ a b : ℚ, divP (some a) (some b) =
        if b = 0 then (if a = 0 then none else if 0 < a then some PVal.pinf else some PVal.ninf)
        else some (PVal.num (a / b)))
    ∧ (∀ x : Option ℚ, divP none x = none ∧ divP x none = none)
    ∧ (∀ (rows : List (String → Option ℚ)) (n d : String),
        (ratioCol rows n d).length = rows.length)
    ∧ (∀ (df : DataFrame) (v : ℚ) (n d : String),
        propRatios df v n d = (flagRows df v).map (fun r => divP (r n) (r d)))
    ∧ (∀ l : List (Option PVal),
        pmedian (none :: l) = pmedian l ∧ pminl (none :: l) = pminl l
          ∧ pmaxl (none :: l) = pmaxl l)
    ∧ (∀ x y : List (Option PVal),
        mannwhitneyu (dropna (none :: x)) (dropna y) = mannwhitneyu (dropna x) (dropna y)) := by
  refine ⟨fun a b => rfl, fun x => ⟨rfl, ?_⟩, fun rows n d => List.length_map _ _,
    fun _ _ _ _ => rfl, fun l => ⟨rfl, rfl, rfl⟩, fun x y => rfl⟩
  cases x <;> rfl

/-- C7: reporting leaves the input frame unchanged, and a second run on the
frame the first call hands back prints the same report: calls are
independent and idempotent, with no shared state. -/
theorem reporting_pure_frame (df : DataFrame) (n d m : String) :
    (proportion_stats df n d).2 = df
      ∧ proportion_stats ((proportion_stats df n d).2) n d = proportion_stats df n d
      ∧ count_stats df m = count_stats df m :=
  ⟨rfl, rfl, rfl⟩

/-- C8: a successful two_by_two call prints exactly the four marginal sums
in the order indicator1 with Closed, indicator2 with Closed, indicator1
with Open, indicator2 with Open. -/
theorem two_by_two_marginals (df : DataFrame) (i1 i2 : String) (out : List (String × ℚ))
    (h : two_by_two df i1 i2 = .ok out) :
    out = [ (i1 ++ ", Closed:", sumOver df 1 i1), (i2 ++ ", Closed:", sumOver df 1 i2),
            (i1 ++ ", Open:", sumOver df 0 i1), (i2 ++ ", Open:", sumOver df 0 i2) ] := by
  unfold two_by_two at h
  obtain ⟨openRows, hg0, h⟩ := bindOk h
  obtain ⟨closedRows, hg1, h⟩ := bindOk h
  obtain ⟨c1, hc1, h⟩ := bindOk h
  obtain ⟨c2, hc2, h⟩ := bindOk h
  obtain ⟨o1, ho1, h⟩ := bindOk h
  obtain ⟨o2, ho2, h⟩ := mapOk h
  have e0 := getGroup_ok hg0
  subst e0
  have e1 := getGroup_ok hg1
  subst e1
  have f1 := selectCol_ok hc1
  subst f1
  have f2 := selectCol_ok hc2
  subst f2
  have f3 := selectCol_ok ho1
  subst f3
  have f4 := selectCol_ok ho2
  subst f4
  subst h
  simp [sumOver]

/-- C8 witness: the dfInds run prints the four marginal sums in that
order. -/
theorem two_by_two_marginals_witness :
    outInds = [ ("N" ++ ", Closed:", sumOver dfInds 1 "N"),
                ("D" ++ ", Closed:", sumOver dfInds 1 "D"),
                ("N" ++ ", Open:", sumOver dfInds 0 "N"),
                ("D" ++ ", Open:", sumOver dfInds 0 "D") ] :=
  two_by_two_marginals dfInds "N" "D" outInds (by with_unfolding_all decide)

/-- C9: a zero denominator does not make proportion_stats fail: a nonzero
numerator over zero yields an infinite ratio that is kept (it reaches the
test sample and the group median and max), while 0/0 yields a missing
ratio that is excluded; on dfZeroDen the whole report succeeds. -/
theorem zero_denominator_policy :
    (∀ a : ℚ, 0 < a → divP (some a) (some 0) = some PVal.pinf)
    ∧ (∀ a : ℚ, a < 0 → divP (some a) (some 0) = some PVal.ninf)
    ∧ divP (some 0) (some 0) = none
    ∧ dropna (propRatios dfZeroDen 0 "N" "D") = [PVal.pinf, PVal.num (1 / 2)]
    ∧ (flagRows dfZeroDen 0).length = 3
    ∧ proportion_stats dfZeroDen "N" "D" = (.ok linesZeroDen, dfZeroDen) := by
  refine ⟨?_, ?_, by with_unfolding_all decide, by with_unfolding_all decide,
    by with_unfolding_all decide, ?_⟩
  · intro a ha
    simp [divP, ha.ne', ha]
  · intro a ha
    simp [divP, ha.ne, not_lt.mpr ha.le]
  · have : proportion_report dfZeroDen "N" "D" = .ok linesZeroDen := by
      with_unfolding_all decide
    simp only [proportion_stats, this]

/-- C9 witness: 1/0 is the positive infinity and (-1)/0 the negative one. -/
theorem zero_denominator_policy_witness :
    divP (some 1) (some 0) = some PVal.pinf ∧ divP (some (-1)) (some 0) = some PVal.ninf :=
  ⟨zero_denominator_policy.1 1 (by norm_num), zero_denominator_policy.2.1 (-1) (by norm_num)⟩

/-- C10: a successful count_stats run draws the group lines and the test
sample from the flag-0 and flag-1 rows only, while the Total line sums the
whole column; on dfFlagTwo the flag-2 measure value 7 is excluded from both
samples yet counted in the Total, which therefore differs from the sum of
the two group sums. -/
theorem flag_exclusion_total_mismatch :
    (∀ (df : DataFrame) (m : String) (lines : List Line),
        count_stats df m = .ok lines → lines = countReport df m)
    ∧ count_stats dfFlagTwo "M" = .ok linesFlagTwo
    ∧ linesFlagTwo[1]? = some (Line.total (qsum (colOf dfFlagTwo.rows "M")))
    ∧ qsum (colOf dfFlagTwo.rows "M") ≠ sumOver dfFlagTwo 0 "M" + sumOver dfFlagTwo 1 "M"
    ∧ countSample dfFlagTwo 0 "M" = [PVal.num 1]
    ∧ countSample dfFlagTwo 1 "M" = [PVal.num 2] :=
  ⟨fun _ _ _ h => count_shape h, by with_unfolding_all decide, by with_unfolding_all decide,
    by with_unfolding_all decide, by with_unfolding_all decide, by with_unfolding_all decide⟩

/-- C10 witness: the successful dfFlagTwo run has exactly the countReport
shape, whose Total sums the whole column while the group lines use the
flag-0 and flag-1 rows only. -/
theorem flag_exclusion_total_mismatch_witness : linesFlagTwo = countReport dfFlagTwo "M" :=
  flag_exclusion_total_mismatch.1 dfFlagTwo "M" linesFlagTwo (by with_unfolding_all decide)

end GeorgiaLDU
